import Mathlib

/-!
# Verification of the simple-nexmo request/response pipeline

Shallow embedding of `lib/nexmo.js`: the request builder and response
normalizer (`sendRequest`), the send-operation response guard
(`sendMessage`), the synchronous validation phase of the public
operations, and the JavaScript value semantics (truthiness, property
access, `ToNumber` coercion) that those functions rely on.

Conventions:
* `Option JVal` models a JavaScript value that may be `undefined`
  (`none` = `undefined`).
* Faulting operations (e.g. reading a property of `undefined`) return
  `Except String`, the error being the thrown `TypeError` text.
* Strings are Lean `String`s; JavaScript `String.prototype.length`
  counts UTF-16 code units which, for the ASCII output of the URL
  encoder, coincides with `String.length` here.
-/

set_option autoImplicit false

namespace Nexmo

/-! ## JavaScript value model -/

/-- A JSON / JavaScript value as produced by `JSON.parse`. -/
inductive JVal where
  | jnull
  | jbool (b : Bool)
  | jnum (n : Int)
  | jstr (s : String)
  | jarr (elems : List JVal)
  | jobj (fields : List (String × JVal))
deriving Repr

/-- JavaScript truthiness of a defined value: `null`, `false`, `0` and
the empty string are falsy; every object and array (including the empty
array) is truthy. -/
def truthy : JVal → Bool
  | .jnull => false
  | .jbool b => b
  | .jnum n => n != 0
  | .jstr s => s != ""
  | .jarr _ => true
  | .jobj _ => true

/-- Truthiness of a possibly-`undefined` value (`undefined` is falsy). -/
def truthyO : Option JVal → Bool
  | none => false
  | some v => truthy v

/-- Field lookup in an object literal; on duplicate keys the later entry
wins, as in `JSON.parse`. -/
def lookupField (fields : List (String × JVal)) (key : String) : Option JVal :=
  fields.foldl (fun acc f => if f.1 == key then some f.2 else acc) none

/-- JavaScript property read `base[key]`: throws a `TypeError` when the
base is `undefined` or `null`; yields `undefined` for a named property
of a primitive or an array (none of the property names used by the
source exist on those). -/
def getMember : Option JVal → String → Except String (Option JVal)
  | none, key => .error ("TypeError: cannot read property " ++ key ++ " of undefined")
  | some .jnull, key => .error ("TypeError: cannot read property " ++ key ++ " of null")
  | some (.jobj fields), key => .ok (lookupField fields key)
  | some _, _ => .ok none

/-- JavaScript element read `base[0]`: throws on `undefined`/`null`,
yields the first array element (or `undefined` for an empty array), the
first character of a string, and `undefined` otherwise. -/
def getIndex0 : Option JVal → Except String (Option JVal)
  | none => .error "TypeError: cannot read property 0 of undefined"
  | some .jnull => .error "TypeError: cannot read property 0 of null"
  | some (.jarr es) => .ok es.head?
  | some (.jstr s) => .ok ((s.data.head?).map (fun c => JVal.jstr (String.singleton c)))
  | some _ => .ok none

/-- JavaScript `ToNumber`, modelled for the value shapes the source
compares with `> 0` (`none` = `NaN`). Strings are modelled for integer
literals; array/object coercion (which goes through `toString`) is
approximated by `NaN`, which agrees with the source's `> 0` use for
`{}` and `[]` since `"" > 0` and `NaN > 0` are both false. -/
def toNumberV : JVal → Option Int
  | .jnull => some 0
  | .jbool b => some (if b then 1 else 0)
  | .jnum n => some n
  | .jstr s => if s == "" then some 0 else s.toInt?
  | .jarr _ => none
  | .jobj _ => none

/-- `ToNumber` of a possibly-`undefined` value (`undefined` → `NaN`). -/
def toNumberO : Option JVal → Option Int
  | none => none
  | some v => toNumberV v

/-- The JavaScript comparison `v > 0` (false when `ToNumber v` is `NaN`). -/
def jsGtZero (v : Option JVal) : Bool :=
  match toNumberO v with
  | some n => decide (0 < n)
  | none => false

/-! ## Send-operation response guard (`sendMessage`, nexmo.js lines 539-550)

The anonymous callback that `sendMessage` passes to `sendRequest`:

```
function(err, apiResponse) {
  if (!err && apiResponse.status && apiResponse['error-text']) {
    sendErrorResponse(callback, new Error(apiResponse['error-text'], apiResponse));
  }
  else if (!err && apiResponse.status && apiResponse.messages && apiResponse.messages[0].status > 0) {
    sendErrorResponse(callback, new Error(apiResponse.messages[0]['error-text'], apiResponse));
  } else {
    if (callback) { callback(err, apiResponse); }
  }
}
```
-/

/-- Outcome the guard hands to the caller's continuation:
`appError text` is `sendErrorResponse(callback, new Error(text, ...))`
(the continuation receives the error and an `undefined` data argument);
`forward err resp` is the pass-through `callback(err, apiResponse)`. -/
inductive SendOutcome where
  | appError (text : Option JVal)
  | forward (errTruthy : Bool) (resp : Option JVal)
deriving Repr

/-- The guard's classification of a normalized `(err, apiResponse)`
pair, including the JavaScript faults of its property accesses. The
`&&` chains short-circuit exactly as in the source; `apiResponse.status`
is re-read by the second condition but property reads are pure, so the
first read's result is reused. A thrown `TypeError` is `.error`. -/
def sendClassify (errTruthy : Bool) (apiResponse : Option JVal) : Except String SendOutcome :=
  if errTruthy then .ok (.forward errTruthy apiResponse)
  else
    match getMember apiResponse "status" with
    | .error e => .error e
    | .ok st =>
      if truthyO st then
        match getMember apiResponse "error-text" with
        | .error e => .error e
        | .ok et =>
          if truthyO et then
            match getMember apiResponse "error-text" with
            | .error e => .error e
            | .ok et2 => .ok (.appError et2)
          else
            match getMember apiResponse "messages" with
            | .error e => .error e
            | .ok msgs =>
              if truthyO msgs then
                match getIndex0 msgs with
                | .error e => .error e
                | .ok m0 =>
                  match getMember m0 "status" with
                  | .error e => .error e
                  | .ok m0st =>
                    if jsGtZero m0st then
                      match getIndex0 msgs with
                      | .error e => .error e
                      | .ok m0b =>
                        match getMember m0b "error-text" with
                        | .error e => .error e
                        | .ok met => .ok (.appError met)
                    else .ok (.forward errTruthy apiResponse)
              else .ok (.forward errTruthy apiResponse)
      else .ok (.forward errTruthy apiResponse)

/-! ## Response normalizer event machine (`sendRequest`, nexmo.js lines 615-655)

```
var buffer = '';
request.on('response', function (response) {
  response.on('data', function (chunk) { buffer += chunk; });
  response.on('end', function () {
    if (callback) {
      var err = null;
      try { responseData = JSON.parse(buffer); }
      catch (_error) { err = _error; }
      callback(err, responseData);
    }
  });
  response.on('close', function (e) { callback(e); });
});
request.on('error', function (e) { callback(e); });
```

The machine is parametric in the JSON decoder `dec` (standing for
`JSON.parse`: `none` means the parse throws a `SyntaxError`). The
response-level `data`/`end`/`close` listeners only exist once the
`response` event has fired; the request-level `error` listener is
always active. Nothing detaches a listener or records that the
continuation already fired. An uncaught `TypeError` (calling an
`undefined` callback) aborts event processing. -/

/-- A transport event: the `response` arrival, a body chunk, normal
stream completion, abnormal close (with its error object), or a
request-level connection error. -/
inductive TransportEvent where
  | response
  | dataChunk (chunk : String)
  | endEvent
  | closeEvent (e : Nat)
  | errorEvent (e : Nat)
deriving Repr, DecidableEq

/-- The first argument the source passes to the continuation. -/
inductive JsErr where
  | nullErr
  | syntaxErr (raw : String)
  | transport (e : Nat)
deriving Repr, DecidableEq

/-- One observable effect of an event handler on the caller:
`invoked err data` is `callback(err, data)` (with `data = none` when the
source passes no second argument / `undefined`); `typeErrorThrown` is
the `TypeError` from calling an omitted callback. -/
inductive CallbackEffect where
  | invoked (err : JsErr) (data : Option JVal)
  | typeErrorThrown
deriving Repr

/-- Process a transport event trace. `gotResponse` records whether the
`response` event has fired (and hence whether the response listeners
are attached); `buffer` is the accumulated body. Transport error
objects are identified by a `Nat` tag. -/
def runEvents (dec : String → Option JVal) (hasCallback : Bool) :
    Bool → String → List TransportEvent → List CallbackEffect
  | _, _, [] => []
  | _, buffer, .response :: rest =>
      runEvents dec hasCallback true buffer rest
  | gotResponse, buffer, .dataChunk c :: rest =>
      runEvents dec hasCallback gotResponse (if gotResponse then buffer ++ c else buffer) rest
  | gotResponse, buffer, .endEvent :: rest =>
      if gotResponse then
        (if hasCallback then
          match dec buffer with
          | some v => [.invoked .nullErr (some v)]
          | none => [.invoked (.syntaxErr buffer) none]
         else []) ++ runEvents dec hasCallback gotResponse buffer rest
      else runEvents dec hasCallback gotResponse buffer rest
  | gotResponse, buffer, .closeEvent e :: rest =>
      if gotResponse then
        if hasCallback then
          .invoked (.transport e) none :: runEvents dec hasCallback gotResponse buffer rest
        else [.typeErrorThrown]
      else runEvents dec hasCallback gotResponse buffer rest
  | gotResponse, buffer, .errorEvent e :: rest =>
      if hasCallback then
        .invoked (.transport e) none :: runEvents dec hasCallback gotResponse buffer rest
      else [.typeErrorThrown]

/-- A full request lifecycle starting from the fresh `buffer = ''` of
one `sendRequest` call. -/
def requestLifecycle (dec : String → Option JVal) (hasCallback : Bool)
    (events : List TransportEvent) : List CallbackEffect :=
  runEvents dec hasCallback false "" events

/-! ## URL encoding (`querystring.stringify` / `encodeURIComponent`)

Node's `querystring.escape` (and `encodeURIComponent`, used by
`updateSecret` and the callback-URL operations) leave the characters
`A-Z a-z 0-9 - . _ ~ ! ' ( ) *` unescaped and replace every other
character by the percent-encoding of its UTF-8 bytes, with uppercase
hex digits. The encoded output is therefore pure ASCII. -/

/-- Characters the encoder leaves unescaped (code 39 is the
apostrophe). -/
def isUnreserved (c : Char) : Bool :=
  decide (65 ≤ c.toNat ∧ c.toNat ≤ 90) || decide (97 ≤ c.toNat ∧ c.toNat ≤ 122) ||
  decide (48 ≤ c.toNat ∧ c.toNat ≤ 57) ||
  decide (c.toNat ∈ [45, 46, 95, 126, 33, 39, 40, 41, 42])

/-- Uppercase hexadecimal digit for a value below 16. -/
def hexDigit (n : Nat) : Char :=
  (['0', '1', '2', '3', '4', '5', '6', '7', '8', '9', 'A', 'B', 'C', 'D', 'E', 'F']).getD n 'F'

/-- Percent-encoding of one byte: `%` followed by two hex digits. -/
def pctByteL (b : Nat) : List Char :=
  ['%', hexDigit (b / 16 % 16), hexDigit (b % 16)]

/-- The UTF-8 bytes of a Unicode code point. -/
def utf8Bytes (n : Nat) : List Nat :=
  if n < 128 then [n]
  else if n < 2048 then [192 + n / 64, 128 + n % 64]
  else if n < 65536 then [224 + n / 4096, 128 + n / 64 % 64, 128 + n % 64]
  else [240 + n / 262144, 128 + n / 4096 % 64, 128 + n / 64 % 64, 128 + n % 64]

/-- Encoding of one character: itself when unreserved, otherwise the
percent-encoded UTF-8 bytes. -/
def escapeCharL (c : Char) : List Char :=
  if isUnreserved c then [c] else (utf8Bytes c.toNat).flatMap pctByteL

/-- `querystring.escape` / `encodeURIComponent` over a whole string. -/
def qsEscape (s : String) : String :=
  ⟨s.data.flatMap escapeCharL⟩

/-- The byte length of the UTF-8 encoding of a string (what
`Buffer.byteLength` and the wire see when Node writes the string with
`utf8` encoding). -/
def utf8ByteLen (s : String) : Nat :=
  (s.data.flatMap (fun c => utf8Bytes c.toNat)).length

/-- `Array.prototype.join(sep)`. -/
def joinSep (sep : String) : List String → String
  | [] => ""
  | [x] => x
  | x :: y :: rest => x ++ sep ++ joinSep sep (y :: rest)

/-- `querystring.stringify`: escaped `key=value` pairs joined by `&`. -/
def qsStringify (pairs : List (String × String)) : String :=
  joinSep "&" (pairs.map (fun p => qsEscape p.1 ++ "=" ++ qsEscape p.2))

/-- `encodeURIComponent`; it shares the unreserved set modelled above
with `querystring.escape`, so the two encoders coincide here. -/
def encodeURIComponent (s : String) : String :=
  qsEscape s

/-! ## Configuration, headers and the request builder
(`sendRequest`, nexmo.js lines 563-613) -/

/-- The module-level `_ERROR_MESSAGES` table (the entries the claims
touch). -/
def initializeRequiredMsg : String :=
  "nexmo not initialized, call nexmo.initialize(api_key, api_secret) first before calling any nexmo API"

def invalidTextMessageMsg : String := "Invalid text message"

def invalidSenderMsg : String := "Invalid from address"

def invalidRecipientMsg : String := "Invalid to address"

def invalidNewSecretMsg : String := "Invalid new secret"

def invalidTransactionIdMsg : String := "Invalid transaction id"

/-- The module-level settings `_apiKey`, `_apiSecret`, `_useHttps`,
`_initialized` (nexmo.js lines 99-103; `_debugMode` only affects
logging and is omitted). -/
structure Config where
  apiKey : String
  apiSecret : String
  useHttps : Bool
  initialized : Bool
deriving Repr, DecidableEq

/-- The module-level shared `_HEADERS` object (nexmo.js lines 34-37):
two fixed entries, plus the `Content-Length` entry that `sendRequest`
adds for POST. It is a single mutable object aliased by every request,
so it is threaded through the builder as state. -/
structure Headers where
  contentType : String
  accept : String
  contentLength : Option Nat
deriving Repr, DecidableEq

/-- `_HEADERS` as initialized at module load. -/
def initHeaders : Headers :=
  { contentType := "application/x-www-form-urlencoded"
    accept := "application/json"
    contentLength := none }

/-- The `options` record handed to `http.request`/`https.request`, plus
the body written by `request.write` (`none` when nothing is written). -/
structure RequestOptions where
  host : String
  port : Nat
  path : String
  method : String
  headers : Headers
  body : Option String
deriving Repr, DecidableEq

/-- The credentials-plus-parameters string of `sendRequest`:
`querystring.stringify(credentials)` with `'&' + querystring.stringify(data)`
appended when `data` is truthy. -/
def dataStringOf (cfg : Config) (data : Option (List (String × String))) : String :=
  let creds := qsStringify [("api_key", cfg.apiKey), ("api_secret", cfg.apiSecret)]
  match data with
  | none => creds
  | some d => creds ++ "&" ++ qsStringify d

/-- The synchronous phase of `sendRequest`: the not-initialized guard
and the construction of the outbound request. Throwing
`_ERROR_MESSAGES.initializeRequired` is `.error`. The JavaScript
positional overload (a function in the `method` slot meaning `GET`) is
resolved at each call site, which passes the effective method string.
Returns the built request together with the mutated shared `_HEADERS`
object (for POST the source assigns `_HEADERS['Content-Length'] =
dataString.length` and never removes it). -/
def sendRequest (cfg : Config) (headers : Headers) (endpoint : String)
    (data : Option (List (String × String))) (method : String) :
    Except String (RequestOptions × Headers) :=
  if !cfg.initialized then
    .error initializeRequiredMsg
  else
    let dataString := dataStringOf cfg data
    let headers1 :=
      if method == "POST" then { headers with contentLength := some dataString.length }
      else headers
    let path := if method == "POST" then endpoint else endpoint ++ "?" ++ dataString
    .ok ({ host := "rest.nexmo.com"
           port := if cfg.useHttps then 443 else 80
           path := path
           method := method
           headers := headers1
           body := if method == "POST" then some dataString else none }, headers1)

/-! ## Public operations, synchronous phase
(nexmo.js lines 133-146, 238-240, 266-330, 531-552, 666-672) -/

/-- What a public operation does synchronously, before any transport
event arrives: hand a built request to the transport, invoke the
continuation with a validation error, raise a value to the caller
(`throw`), or crash on a reference to an identifier that does not
exist in the source (`sendError`). -/
inductive SyncResult where
  | request (opts : RequestOptions) (headers : Headers)
  | callbackInvoked (errMsg : String)
  | raised (errMsg : String)
  | referenceError (name : String)
deriving Repr, DecidableEq

/-- `sendErrorResponse` (nexmo.js lines 666-672): deliver the error via
the callback when one exists, otherwise throw it. -/
def sendErrorResponse (hasCallback : Bool) (errMsg : String) : SyncResult :=
  if hasCallback then .callbackInvoked errMsg else .raised errMsg

/-- Lift the result of `sendRequest` into the operation-level result
(the thrown not-initialized string escapes to the caller). -/
def liftRequest : Except String (RequestOptions × Headers) → SyncResult
  | .ok r => .request r.1 r.2
  | .error m => .raised m

/-- String-valued field lookup in an options object built by a send
operation. -/
def lookupStr (data : List (String × String)) (key : String) : Option String :=
  data.foldl (fun acc f => if f.1 == key then some f.2 else acc) none

/-- `sendMessage` (nexmo.js lines 531-552), synchronous phase: the
`!data.from` / `!data.to` checks, then `sendRequest(endpoint, data,
'POST', ...)`. The response-side wrapper it installs is `sendClassify`
above. -/
def sendMessage (cfg : Config) (headers : Headers) (data : List (String × String))
    (endpoint : String) (hasCallback : Bool) : SyncResult :=
  if (lookupStr data "from").getD "" == "" then
    sendErrorResponse hasCallback invalidSenderMsg
  else if (lookupStr data "to").getD "" == "" then
    sendErrorResponse hasCallback invalidRecipientMsg
  else
    liftRequest (sendRequest cfg headers endpoint (some data) "POST")

/-- `sendTextMessage` (nexmo.js lines 133-146): `!message` check, then
`sendMessage` with the unicode-typed options object on `_ENDPOINT.sms`. -/
def sendTextMessage (cfg : Config) (headers : Headers)
    (sender recipient message : String) (hasCallback : Bool) : SyncResult :=
  if message == "" then
    sendErrorResponse hasCallback invalidTextMessageMsg
  else
    sendMessage cfg headers
      [("from", sender), ("to", recipient), ("type", "unicode"), ("text", message)]
      "/sms/json" hasCallback

/-- `getBalance` (nexmo.js lines 238-240): no validation; the callback
sits in the `method` slot of `sendRequest`, so the method is `GET`. -/
def getBalance (cfg : Config) (headers : Headers) (_hasCallback : Bool) : SyncResult :=
  liftRequest (sendRequest cfg headers "/account/get-balance" none "GET")

/-- `updateSecret` (nexmo.js lines 266-276): on an empty or over-long
secret the source calls `sendError(...)`, an identifier that is defined
nowhere in the module (the helper is named `sendErrorResponse`), so the
call throws a `ReferenceError` before anything else happens. -/
def updateSecret (cfg : Config) (headers : Headers) (newSecret : String)
    (_hasCallback : Bool) : SyncResult :=
  if newSecret == "" || decide (8 < newSecret.length) then
    .referenceError "sendError"
  else
    liftRequest (sendRequest cfg headers "/account/settings"
      (some [("newSecret", encodeURIComponent newSecret)]) "POST")

/-- `getTopUp` (nexmo.js lines 320-330): same undefined `sendError`
reference on an empty transaction id. -/
def getTopUp (cfg : Config) (headers : Headers) (transactionId : String)
    (_hasCallback : Bool) : SyncResult :=
  if transactionId == "" then
    .referenceError "sendError"
  else
    liftRequest (sendRequest cfg headers "/account/top-up"
      (some [("trx", transactionId)]) "POST")

/-- `updateMoCallBackUrl` (nexmo.js lines 284-294): undefined
`sendError` reference on an empty URL. -/
def updateMoCallBackUrl (cfg : Config) (headers : Headers) (newUrl : String)
    (_hasCallback : Bool) : SyncResult :=
  if newUrl == "" then
    .referenceError "sendError"
  else
    liftRequest (sendRequest cfg headers "/account/settings"
      (some [("moCallBackUrl", encodeURIComponent newUrl)]) "POST")

/-- A configuration as left by a successful `initialize('key',
'secret')` call (https default). -/
def initializedConfig : Config :=
  { apiKey := "key", apiSecret := "secret", useHttps := true, initialized := true }

/-- The module state before any `initialize` call (nexmo.js lines
99-103). -/
def uninitializedConfig : Config :=
  { apiKey := "", apiSecret := "", useHttps := true, initialized := false }

/-! ## ASCII facts about the URL encoder -/

/-- A string whose characters are all ASCII. -/
def AsciiStr (s : String) : Prop :=
  ∀ c ∈ s.data, c.toNat < 128

theorem hexDigit_ascii (n : Nat) : (hexDigit n).toNat < 128 := by
  unfold hexDigit
  rcases Nat.lt_or_ge n 16 with h | h
  · interval_cases n <;> decide
  · rw [List.getD_eq_default]
    · decide
    · simpa using h

theorem pctByteL_ascii (b : Nat) : ∀ c ∈ pctByteL b, c.toNat < 128 := by
  intro c hc
  simp only [pctByteL, List.mem_cons, List.not_mem_nil, or_false] at hc
  rcases hc with rfl | rfl | rfl
  · decide
  · exact hexDigit_ascii _
  · exact hexDigit_ascii _

theorem isUnreserved_ascii {c : Char} (h : isUnreserved c = true) : c.toNat < 128 := by
  simp only [isUnreserved, Bool.or_eq_true, decide_eq_true_eq, List.mem_cons,
    List.not_mem_nil, or_false] at h
  omega

theorem escapeCharL_ascii (c : Char) : ∀ x ∈ escapeCharL c, x.toNat < 128 := by
  intro x hx
  unfold escapeCharL at hx
  split at hx
  · rcases List.mem_singleton.mp hx with rfl
    exact isUnreserved_ascii (by assumption)
  · rcases List.mem_flatMap.mp hx with ⟨b, _, hb⟩
    exact pctByteL_ascii b x hb

theorem asciiStr_qsEscape (s : String) : AsciiStr (qsEscape s) := by
  intro c hc
  rcases List.mem_flatMap.mp hc with ⟨x, _, hx⟩
  exact escapeCharL_ascii x c hx

theorem asciiStr_append {a b : String} (ha : AsciiStr a) (hb : AsciiStr b) :
    AsciiStr (a ++ b) := by
  intro c hc
  rw [String.data_append] at hc
  rcases List.mem_append.mp hc with h | h
  · exact ha c h
  · exact hb c h

theorem asciiStr_joinSep (sep : String) (hsep : AsciiStr sep) :
    ∀ parts : List String, (∀ p ∈ parts, AsciiStr p) → AsciiStr (joinSep sep parts) := by
  intro parts
  induction parts with
  | nil =>
    intro _ c hc
    simp [joinSep] at hc
  | cons x tail ih =>
    intro h
    cases tail with
    | nil => simpa [joinSep] using h x (by simp)
    | cons y rest =>
      have hx := h x (by simp)
      have htail := ih (fun p hp => h p (by simp [hp]))
      show AsciiStr (x ++ sep ++ joinSep sep (y :: rest))
      exact asciiStr_append (asciiStr_append hx hsep) htail

theorem asciiStr_amp : AsciiStr "&" := by
  intro c hc
  have hc2 : c ∈ ['&'] := hc
  rcases List.mem_singleton.mp hc2 with rfl
  decide

theorem asciiStr_eqSign : AsciiStr "=" := by
  intro c hc
  have hc2 : c ∈ ['='] := hc
  rcases List.mem_singleton.mp hc2 with rfl
  decide

theorem asciiStr_qsStringify (pairs : List (String × String)) :
    AsciiStr (qsStringify pairs) := by
  refine asciiStr_joinSep "&" asciiStr_amp _ ?_
  intro p hp
  rcases List.mem_map.mp hp with ⟨q, _, rfl⟩
  exact asciiStr_append (asciiStr_append (asciiStr_qsEscape q.1) asciiStr_eqSign)
    (asciiStr_qsEscape q.2)

theorem asciiStr_dataStringOf (cfg : Config) (data : Option (List (String × String))) :
    AsciiStr (dataStringOf cfg data) := by
  unfold dataStringOf
  cases data with
  | none => exact asciiStr_qsStringify _
  | some d =>
    exact asciiStr_append (asciiStr_append (asciiStr_qsStringify _) asciiStr_amp)
      (asciiStr_qsStringify _)

theorem utf8Bytes_of_lt {n : Nat} (h : n < 128) : utf8Bytes n = [n] := by
  simp [utf8Bytes, h]

theorem flatMap_utf8_length (l : List Char) (h : ∀ c ∈ l, c.toNat < 128) :
    (l.flatMap fun c => utf8Bytes c.toNat).length = l.length := by
  induction l with
  | nil => rfl
  | cons c tail ih =>
    simp [List.flatMap_cons, utf8Bytes_of_lt (h c (List.mem_cons_self c tail)),
      ih (fun x hx => h x (List.mem_cons_of_mem c hx))]

theorem utf8ByteLen_of_ascii {s : String} (h : AsciiStr s) :
    utf8ByteLen s = s.length :=
  flatMap_utf8_length s.data h

/-! ## Theorems for the claims -/

theorem runEvents_chunks_close (dec : String → Option JVal) (e : Nat) :
    ∀ (chunks : List String) (buffer : String),
      runEvents dec true true buffer (chunks.map .dataChunk ++ [.closeEvent e]) =
        [.invoked (.transport e) none] := by
  intro chunks
  induction chunks with
  | nil => intro buffer; rfl
  | cons c rest ih =>
    intro buffer
    simpa [runEvents] using ih (buffer ++ c)

/-- Claim C1: on the admissible event sequence `response`, `end`, `close` —
explicitly allowed by the claim's own event grammar ("'end' and/or
'close'"), and the normal order in which Node emits both events — the
source invokes the continuation twice: once from the `end` handler
(with the decoded payload) and once more from the `close` handler
(with the close error), because nothing suppresses further events after
dispatch. This refutes the exactly-once invariant as stated. -/
theorem continuation_fires_twice_on_end_then_close :
    requestLifecycle (fun _ => some (.jobj [])) true
        [.response, .endEvent, .closeEvent 7] =
      [.invoked .nullErr (some (.jobj [])), .invoked (.transport 7) none] ∧
    (requestLifecycle (fun _ => some (.jobj [])) true
        [.response, .endEvent, .closeEvent 7]).length = 2 :=
  ⟨rfl, rfl⟩

/-- Claim C2: on a response body that is not valid JSON, the continuation is
invoked exactly once with the decode error as its first argument — but
the second argument is `undefined` (`none`), not the raw accumulated
buffer `"not json"`: on a parse failure the source's `responseData` is
never assigned, although its own log line says the raw API response is
returned to the client. -/
theorem decode_failure_passes_undefined_not_raw_buffer :
    requestLifecycle (fun _ => none) true
        [.response, .dataChunk "not json", .endEvent] =
      [.invoked (.syntaxErr "not json") none] :=
  rfl

/-- Claim C8 (counterexample): for an operation invoked without a
continuation, a transport error event makes the handler call the
`undefined` callback, so a `TypeError` is thrown — refuting "never
thrown ... including one the caller invoked without supplying a
continuation". -/
theorem transport_error_without_continuation_throws :
    requestLifecycle (fun _ => none) false [.errorEvent 3] = [.typeErrorThrown] :=
  rfl

/-- Claim C8 (amended): provided the caller supplied a continuation, every
transport error event and every abnormal close (after any number of
body chunks) is delivered to the caller exactly once through the
continuation, and nothing is thrown. -/
theorem transport_failure_delivered_via_continuation
    (dec : String → Option JVal) (e : Nat) (chunks : List String) :
    requestLifecycle dec true [.errorEvent e] = [.invoked (.transport e) none] ∧
    requestLifecycle dec true (.response :: chunks.map .dataChunk ++ [.closeEvent e]) =
      [.invoked (.transport e) none] := by
  refine ⟨rfl, ?_⟩
  show runEvents dec true true "" (chunks.map .dataChunk ++ [.closeEvent e]) = _
  exact runEvents_chunks_close dec e chunks ""

/-- Claim C6: whenever the decoded send-response payload is an object
whose top-level `status` field is truthy and whose `error-text` field
is truthy, the guard classifies the outcome as the application error
carrying that error text (via `sendErrorResponse(callback, new
Error(apiResponse['error-text'], ...))`), never as a success
pass-through. `errTruthy = false` records that the transport and the
decode succeeded (HTTP 200, valid JSON). -/
theorem status_and_error_text_yield_application_error
    (fields : List (String × JVal)) (st et : JVal)
    (hst : lookupField fields "status" = some st) (hts : truthy st = true)
    (het : lookupField fields "error-text" = some et) (hte : truthy et = true) :
    sendClassify false (some (.jobj fields)) = .ok (.appError (some et)) := by
  simp [sendClassify, getMember, truthyO, hst, het, hts, hte]

/-- Claim C6 witness: the spec's own example body
`{"status":"1","error-text":"bad request"}` yields the application
error carrying `"bad request"`. -/
theorem status_and_error_text_witness :
    sendClassify false (some (.jobj [("status", .jstr "1"), ("error-text", .jstr "bad request")])) =
      .ok (.appError (some (.jstr "bad request"))) :=
  status_and_error_text_yield_application_error
    [("status", .jstr "1"), ("error-text", .jstr "bad request")]
    (.jstr "1") (.jstr "bad request") rfl rfl rfl rfl

/-- The decoded payload `{"messages":[{"status":6,"error-text":"boom"}]}`:
a messages list whose first entry has a nonzero status, but no truthy
top-level `status` field. -/
def payloadNoTopStatus : Option JVal :=
  some (.jobj [("messages", .jarr [.jobj [("status", .jnum 6), ("error-text", .jstr "boom")]])])

/-- Claim C3 (counterexample): for the payload
`{"messages":[{"status":6,"error-text":"boom"}]}` — a messages list
whose first entry has a nonzero status code but with no truthy
top-level `status` field — the guard does NOT produce an application
error: the `apiResponse.status` conjunct of the second condition is
falsy, so the payload is forwarded to the continuation as a success.
This refutes the claim's "including those with no truthy top-level
status field". -/
theorem nonzero_message_status_without_top_status_passes :
    sendClassify false payloadNoTopStatus = .ok (.forward false payloadNoTopStatus) ∧
    ∀ t, sendClassify false payloadNoTopStatus ≠ .ok (.appError t) := by
  constructor
  · rfl
  · intro t h
    have h2 : (Except.ok (SendOutcome.forward false payloadNoTopStatus) :
        Except String SendOutcome) = .ok (.appError t) := h
    simp at h2

/-- Claim C3 (amended): the re-classification to an application error
from the first messages entry happens only when the payload ALSO
carries a truthy top-level `status` field: if `status` is truthy,
`error-text` is absent or falsy, `messages` is a list whose first
entry's `status` compares greater than zero, then the outcome is the
application error carrying the first entry's `error-text`. -/
theorem first_message_entry_error_with_truthy_status
    (fields : List (String × JVal)) (st m0 : JVal) (rest : List JVal)
    (m0st met : Option JVal)
    (hst : lookupField fields "status" = some st) (hts : truthy st = true)
    (het : truthyO (lookupField fields "error-text") = false)
    (hm : lookupField fields "messages" = some (.jarr (m0 :: rest)))
    (hm0st : getMember (some m0) "status" = .ok m0st)
    (hgt : jsGtZero m0st = true)
    (hmet : getMember (some m0) "error-text" = .ok met) :
    sendClassify false (some (.jobj fields)) = .ok (.appError met) := by
  have h1 : getMember (some (.jobj fields)) "status" = .ok (some st) := by
    simp [getMember, hst]
  have h2 : getMember (some (.jobj fields)) "error-text" =
      .ok (lookupField fields "error-text") := by
    simp [getMember]
  have h3 : getMember (some (.jobj fields)) "messages" = .ok (some (.jarr (m0 :: rest))) := by
    simp [getMember, hm]
  have h4 : getIndex0 (some (.jarr (m0 :: rest))) = .ok (some m0) := by
    simp [getIndex0]
  have hjarr : truthy (.jarr (m0 :: rest)) = true := rfl
  simp only [sendClassify, h1, h2, h3, h4, het]
  simp [truthyO, hts, hjarr, hm0st, hgt, hmet]

/-- Claim C3 witness for the amended statement: the payload
`{"status":"1","messages":[{"status":6,"error-text":"boom"}]}` yields
the application error carrying `"boom"`. -/
theorem first_message_entry_error_witness :
    sendClassify false
        (some (.jobj [("status", .jstr "1"),
          ("messages", .jarr [.jobj [("status", .jnum 6), ("error-text", .jstr "boom")]])])) =
      .ok (.appError (some (.jstr "boom"))) :=
  first_message_entry_error_with_truthy_status
    [("status", .jstr "1"),
      ("messages", .jarr [.jobj [("status", .jnum 6), ("error-text", .jstr "boom")]])]
    (.jstr "1") (.jobj [("status", .jnum 6), ("error-text", .jstr "boom")]) []
    (some (.jnum 6)) (some (.jstr "boom")) rfl rfl rfl rfl rfl rfl rfl

/-- Claim C10: for the decoded payload `{"status":"1","messages":[]}` —
truthy top-level status, no `error-text`, empty messages list — the
guard does NOT produce a well-defined outcome: the empty array is
truthy, so the source evaluates `apiResponse.messages[0].status`,
reading `status` of `undefined`, which throws a `TypeError` out of the
response handler (so the continuation is never invoked for this call). -/
theorem empty_messages_list_faults :
    sendClassify false (some (.jobj [("status", .jstr "1"), ("messages", .jarr [])])) =
      .error "TypeError: cannot read property status of undefined" :=
  rfl

/-- Claim C4: the account-settings operations named by the claim do not
deliver their validation failures at all: their guard branches call
`sendError(...)`, an identifier defined nowhere in the module (the
defined helper is `sendErrorResponse`), so an empty or over-long new
secret, an empty transaction id, or an empty callback URL makes the
call throw a `ReferenceError` to the caller even when a continuation
was supplied, and the continuation is never invoked. -/
theorem validation_failure_hits_undefined_send_error :
    updateSecret initializedConfig initHeaders "" true = .referenceError "sendError" ∧
    updateSecret initializedConfig initHeaders "123456789" true = .referenceError "sendError" ∧
    getTopUp initializedConfig initHeaders "" true = .referenceError "sendError" ∧
    updateMoCallBackUrl initializedConfig initHeaders "" true = .referenceError "sendError" :=
  ⟨rfl, rfl, rfl, rfl⟩

/-- Claim C5 (counterexample): on an uninitialized client,
`sendTextMessage` with an invalid argument (empty message text) and a
continuation does NOT fail fast with the not-initialized condition:
the per-operation validation runs first (the `initialized` flag is only
checked inside `sendRequest`), so the continuation IS invoked, with the
invalid-text-message validation error. -/
theorem uninitialized_invalid_args_invoke_continuation :
    sendTextMessage uninitializedConfig initHeaders "alice" "447700900000" "" true =
      .callbackInvoked invalidTextMessageMsg ∧
    sendTextMessage uninitializedConfig initHeaders "alice" "447700900000" "" true ≠
      .raised initializeRequiredMsg :=
  ⟨rfl, by decide⟩

/-- Claim C5 (amended): on an uninitialized client, an operation whose
arguments pass its own validation fails fast synchronously with the
not-initialized condition (the thrown `initializeRequired` string), the
continuation is not invoked, and no request is built; operations with
no argument validation (e.g. `getBalance`) do so for every argument
combination. -/
theorem uninitialized_valid_args_fail_fast
    (cfg : Config) (headers : Headers) (sender recipient message : String) (hasCb : Bool)
    (hinit : cfg.initialized = false)
    (hs : sender ≠ "") (hr : recipient ≠ "") (hm : message ≠ "") :
    sendTextMessage cfg headers sender recipient message hasCb =
      .raised initializeRequiredMsg ∧
    getBalance cfg headers hasCb = .raised initializeRequiredMsg := by
  have hm' : (message == "") = false := beq_eq_false_iff_ne.mpr hm
  have hs' : (sender == "") = false := beq_eq_false_iff_ne.mpr hs
  have hr' : (recipient == "") = false := beq_eq_false_iff_ne.mpr hr
  constructor
  · simp [sendTextMessage, sendMessage, lookupStr, hm', hs', hr', sendRequest,
      liftRequest, hinit]
  · simp [getBalance, sendRequest, liftRequest, hinit]

/-- Claim C5 witness for the amended statement. -/
theorem uninitialized_valid_args_fail_fast_witness :
    sendTextMessage uninitializedConfig initHeaders "alice" "447700900000" "hello" true =
      .raised initializeRequiredMsg ∧
    getBalance uninitializedConfig initHeaders true = .raised initializeRequiredMsg :=
  uninitialized_valid_args_fail_fast uninitializedConfig initHeaders
    "alice" "447700900000" "hello" true rfl (by decide) (by decide) (by decide)

theorem joinSep_append (sep : String) :
    ∀ l1 l2 : List String, l1 ≠ [] → l2 ≠ [] →
      joinSep sep (l1 ++ l2) = joinSep sep l1 ++ sep ++ joinSep sep l2 := by
  intro l1
  induction l1 with
  | nil => intro l2 h1 _; cases h1 rfl
  | cons x tail ih =>
    intro l2 h1 h2
    cases tail with
    | nil =>
      cases l2 with
      | nil => cases h2 rfl
      | cons y rest => rfl
    | cons z rest1 =>
      have ihz := ih l2 (by simp) h2
      show x ++ sep ++ joinSep sep ((z :: rest1) ++ l2) =
        (x ++ sep ++ joinSep sep (z :: rest1)) ++ sep ++ joinSep sep l2
      rw [ihz]
      simp [String.append_assoc]

theorem qsStringify_cons_cons_append (a b : String × String)
    (d : List (String × String)) (hd : d ≠ []) :
    qsStringify (a :: b :: d) = qsStringify [a, b] ++ "&" ++ qsStringify d := by
  unfold qsStringify
  have h2 : d.map (fun p => qsEscape p.1 ++ "=" ++ qsEscape p.2) ≠ [] := by
    cases d with
    | nil => cases hd rfl
    | cons p rest => simp
  simpa using joinSep_append "&"
    [qsEscape a.1 ++ "=" ++ qsEscape a.2, qsEscape b.1 ++ "=" ++ qsEscape b.2]
    (d.map fun p => qsEscape p.1 ++ "=" ++ qsEscape p.2) (by simp) h2

/-- Claim C7: for every POST and every parameter mapping, the built
request has the URL-encoded credentials-plus-parameters string as its
body, the `Content-Length` header equal to the UTF-8 byte length of
that body (the source stores `dataString.length`, which coincides with
the byte length because the encoder's output is pure ASCII — multi-byte
characters in parameters are percent-encoded before the length is
taken), and a path with no query string appended. The second conjunct
identifies the body with the URL encoding of the credential pairs
followed by the caller's parameters. -/
theorem post_request_body_content_length_and_path
    (cfg : Config) (headers : Headers) (endpoint : String)
    (data : Option (List (String × String)))
    (hinit : cfg.initialized = true) :
    sendRequest cfg headers endpoint data "POST" =
      .ok ({ host := "rest.nexmo.com"
             port := if cfg.useHttps then 443 else 80
             path := endpoint
             method := "POST"
             headers := { headers with contentLength := some (utf8ByteLen (dataStringOf cfg data)) }
             body := some (dataStringOf cfg data) },
           { headers with contentLength := some (utf8ByteLen (dataStringOf cfg data)) }) ∧
    (∀ d, data = some d → d ≠ [] →
      dataStringOf cfg data =
        qsStringify (("api_key", cfg.apiKey) :: ("api_secret", cfg.apiSecret) :: d)) := by
  constructor
  · have hlen : utf8ByteLen (dataStringOf cfg data) = (dataStringOf cfg data).length :=
      utf8ByteLen_of_ascii (asciiStr_dataStringOf cfg data)
    simp [sendRequest, hinit, hlen]
  · rintro d rfl hd
    exact (qsStringify_cons_cons_append ("api_key", cfg.apiKey)
      ("api_secret", cfg.apiSecret) d hd).symm

/-- Claim C7 witness: a POST carrying a parameter with a non-ASCII
character (`"é"`, code point 233, UTF-8 `C3 A9`): the encoded body is
ASCII, and the Content-Length equals both its character count and its
byte length. -/
theorem post_request_witness :
    sendRequest initializedConfig initHeaders "/account/top-up" (some [("trx", "é")]) "POST" =
      .ok ({ host := "rest.nexmo.com"
             port := 443
             path := "/account/top-up"
             method := "POST"
             headers := { contentType := "application/x-www-form-urlencoded"
                          accept := "application/json"
                          contentLength := some (utf8ByteLen (dataStringOf initializedConfig (some [("trx", "é")]))) }
             body := some (dataStringOf initializedConfig (some [("trx", "é")])) },
           { contentType := "application/x-www-form-urlencoded"
             accept := "application/json"
             contentLength := some (utf8ByteLen (dataStringOf initializedConfig (some [("trx", "é")]))) }) ∧
    dataStringOf initializedConfig (some [("trx", "é")]) =
      "api_key=key&api_secret=secret&trx=%C3%A9" ∧
    utf8ByteLen (dataStringOf initializedConfig (some [("trx", "é")])) = 40 := by
  refine ⟨?_, by decide, by decide⟩
  exact (post_request_body_content_length_and_path initializedConfig initHeaders
    "/account/top-up" (some [("trx", "é")]) rfl).1

/-- The shared module-level `_HEADERS` object as it stands after a
`getTopUp` POST (whose `sendRequest` stored the POST body's length into
it and never removed it). -/
def headersAfterTopUp : Headers :=
  match sendRequest initializedConfig initHeaders "/account/top-up"
      (some [("trx", "ABC123")]) "POST" with
  | .ok r => r.2
  | .error _ => initHeaders

/-- Claim C9: a GET issued after a POST does NOT carry only the
Content-Type and Accept headers: because `sendRequest` mutates the
shared module-level `_HEADERS` object for POST and never deletes the
entry, the subsequent `getBalance` GET still carries the stale
`Content-Length: 40` of the earlier `getTopUp` POST body
(`"api_key=key&api_secret=secret&trx=ABC123"`, 40 characters). -/
theorem get_after_post_carries_stale_content_length :
    (match sendRequest initializedConfig headersAfterTopUp "/account/get-balance" none "GET" with
      | .ok r => some r.1.headers
      | .error _ => none) =
      some { contentType := "application/x-www-form-urlencoded"
             accept := "application/json"
             contentLength := some 40 } :=
  rfl

end Nexmo
